import Mathlib

/-!
# Verification of the jobly partial-update / filter-query SQL builders

Shallow embedding of `src/helpers/sql.js`, `src/models/company.js` and
`src/models/job.js` (an Express/Node job-board API).  JavaScript values that
can flow through these functions are modelled by `JSVal`; absent object
fields are modelled by `Option JSVal` (`none` = the key is absent or bound
to `undefined`); thrown errors are modelled by `Except JErr`.

The database itself is an external collaborator (a Postgres server); the
semantics of the specific SQL statements the models emit is modelled here by
small executable interpreters over in-memory row lists.
-/

/-- A JavaScript runtime value, restricted to the shapes that flow through
the builders: strings, finite numbers (as rationals), `NaN`, booleans and
`null`.  JS `undefined` is represented by `Option.none` at use sites. -/
inductive JSVal where
  | str (s : String)
  | num (q : ℚ)
  | nan
  | bool (b : Bool)
  | null
deriving DecidableEq, Repr

/-- Errors thrown by the model layer.  `badRequest` is `BadRequestError`,
`notFound` is `NotFoundError` (both from `expressError.js`); `sqlError`
models an error raised by the database engine itself (e.g. an UPDATE that
names a column the table does not have). -/
inductive JErr where
  | badRequest (msg : String)
  | notFound (msg : String)
  | sqlError (msg : String)
deriving DecidableEq, Repr

/-- Numeric value of a run of decimal digit characters. -/
def digitsVal (ds : List Char) : Nat :=
  ds.foldl (fun acc c => 10 * acc + (c.toNat - '0'.toNat)) 0

/-- JS `Number(string)` coercion, `none` meaning `NaN`.  Covers the trimmed
empty string (→ 0) and optionally signed decimal literals with an optional
fractional part; other JS numeric syntaxes (hex, exponent, `Infinity`) are
outside the inputs exercised here and map to `NaN`. -/
def trimChars (cs : List Char) : List Char :=
  ((cs.dropWhile Char.isWhitespace).reverse.dropWhile Char.isWhitespace).reverse

def parseJSNumber (s : String) : Option ℚ :=
  let t := trimChars s.toList
  if t.isEmpty then some 0
  else
    let (neg, rest) : Bool × List Char :=
      match t with
      | '-' :: cs => (true, cs)
      | '+' :: cs => (false, cs)
      | cs => (false, cs)
    let intPart := rest.takeWhile Char.isDigit
    let afterInt := rest.drop intPart.length
    match afterInt with
    | [] =>
        if intPart.isEmpty then none
        else some (if neg then -(digitsVal intPart : ℚ) else (digitsVal intPart : ℚ))
    | '.' :: frac =>
        if frac.all Char.isDigit then
          if intPart.isEmpty && frac.isEmpty then none
          else
            let q : ℚ := (digitsVal (intPart ++ frac) : ℚ) / (10 : ℚ) ^ frac.length
            some (if neg then -q else q)
        else none
    | _ => none

/-- JS ToNumber of a value, `none` meaning `NaN`
(`Number(null) = 0`, `Number(true) = 1`, `Number(false) = 0`). -/
def toNumberOpt : JSVal → Option ℚ
  | .str s => parseJSNumber s
  | .num q => some q
  | .nan => none
  | .bool b => some (if b then 1 else 0)
  | .null => some 0

/-- lodash `toNumber`: like ToNumber but returns the number `NaN` itself
rather than an option. -/
def toNumberV (v : JSVal) : JSVal :=
  match toNumberOpt v with
  | some q => .num q
  | none => .nan

/-- JS string conversion as used in template literals.  The decimal
rendering of non-integer numbers is not replicated exactly (no theorem
below depends on it; all concrete inputs use integers or strings). -/
def jsToString : JSVal → String
  | .str s => s
  | .num q => if q.den = 1 then toString q.num else toString q
  | .nan => "NaN"
  | .bool b => if b then "true" else "false"
  | .null => "null"

/-- Strict lexicographic order on character sequences, comparing scalar
values positionwise (what JS string `<` does, up to surrogate pairs, which
no input here contains). -/
def charListLt : List Char → List Char → Bool
  | _, [] => false
  | [], _ :: _ => true
  | a :: s, b :: t =>
      if a.toNat < b.toNat then true
      else if b.toNat < a.toNat then false
      else charListLt s t

/-- The JS `>` relational operator on two values: if both operands are
strings it compares them lexicographically by code unit, otherwise it
compares their numeric coercions (`false` when either is `NaN`). -/
def jsGT : JSVal → JSVal → Bool
  | .str a, .str b => charListLt b.toList a.toList
  | a, b =>
      match toNumberOpt a, toNumberOpt b with
      | some x, some y => decide (y < x)
      | _, _ => false

/-- lodash `isNil` on a possibly-absent field: `true` for an absent key
(`undefined`) and for `null`. -/
def isNilO : Option JSVal → Bool
  | none => true
  | some .null => true
  | some _ => false

/-- Global `isNaN` on a possibly-absent field: `Number(x)` is `NaN`
(`isNaN(undefined) = true`). -/
def isNaNO : Option JSVal → Bool
  | none => true
  | some v => (toNumberOpt v).isNone

/-- The JS `>` operator applied to two present fields (only consulted when
both are non-nil). -/
def jsGTO : Option JSVal → Option JSVal → Bool
  | some a, some b => jsGT a b
  | _, _ => false

/-- The value of a present field (only consulted under a `!isNil` guard,
where it is the stored non-null value). -/
def valOf (o : Option JSVal) : JSVal := o.getD .null

/-- SQL `=` comparison as used by the `WHERE <key> = $n` lookups:
`NULL` compares false with everything, otherwise plain equality. -/
def sqlEqB (a b : JSVal) : Bool :=
  if a = .null ∨ b = .null then false else decide (a = b)

deriving instance DecidableEq for Except

/-! ## `src/helpers/sql.js` — `sqlForPartialUpdate` -/

/-- The object `{ setCols, values }` returned by `sqlForPartialUpdate`. -/
structure SqlUpdateParts where
  setCols : String
  values : List JSVal
deriving DecidableEq, Repr

/-- First binding of a key in a string-to-string JS object (modelled as an
association list; an actual JS object has no duplicate keys). -/
def lookupStr (m : List (String × String)) (k : String) : Option String :=
  match m with
  | [] => none
  | (k', v) :: rest => if k' = k then some v else lookupStr rest k

/-- `jsToSql[colName] || colName`: the translated column name when the
mapping binds `colName` to a truthy (non-empty) string, else `colName`. -/
def resolveCol (jsToSql : List (String × String)) (colName : String) : String :=
  match lookupStr jsToSql colName with
  | some c => if c = "" then colName else c
  | none => colName

/-- `sqlForPartialUpdate(dataToUpdate, jsToSql = {})` from
`src/helpers/sql.js` lines 13–26.  `dataToUpdate` is an object modelled as
its ordered key/value list (JS object iteration order). -/
def sqlForPartialUpdate (dataToUpdate : List (String × JSVal))
    (jsToSql : List (String × String) := []) : Except JErr SqlUpdateParts :=
  let keys := dataToUpdate.map Prod.fst
  if keys.length = 0 then .error (.badRequest "No data")
  else
    let cols := keys.enum.map
      (fun p => "\"" ++ resolveCol jsToSql p.2 ++ "\"=$" ++ toString (p.1 + 1))
    .ok { setCols := String.intercalate ", " cols
          values := dataToUpdate.map Prod.snd }

example :
    sqlForPartialUpdate
      [("firstName", .str "Zahra"), ("age", .num 5)] [("firstName", "first_name")]
    = .ok { setCols := "\"first_name\"=$1, \"age\"=$2"
            values := [.str "Zahra", .num 5] } := by decide

example : sqlForPartialUpdate [] [] = .error (.badRequest "No data") := by decide

/-! ## Filter clause building — `Company.findAll` and `Job.findAll`

`src/models/company.js` contains two whole copies of the `Company` class
(the file is a concatenation of two revisions); their `findAll` bodies are
embedded separately below as `companyFindAllV1` (lines 50–123, submitting a
single query object) and `companyFindAllV2` (lines 268–339, submitting SQL
text plus a separate parameter list).

A JS filter object is modelled by one `Option JSVal` per recognized key;
`none` covers both an absent key and a key bound to `undefined`.  lodash
`isEmpty(filterObj)` is modelled as "all recognized fields absent": an
object whose only keys are unrecognized (or present-but-undefined) would
make `isEmpty` false in JS, but entering the building block with every
recognized field nil appends no clause and no parameter, so the two
readings are observationally identical everywhere downstream. -/

structure CompanyFilter where
  name : Option JSVal
  minEmployees : Option JSVal
  maxEmployees : Option JSVal
deriving DecidableEq, Repr

structure JobFilter where
  title : Option JSVal
  minSalary : Option JSVal
  hasEquity : Option JSVal
deriving DecidableEq, Repr

def companyIsEmpty (f : CompanyFilter) : Bool :=
  f.name.isNone && f.minEmployees.isNone && f.maxEmployees.isNone

def jobIsEmpty (f : JobFilter) : Bool :=
  f.title.isNone && f.minSalary.isNone && f.hasEquity.isNone

/-- The local state `whereClause` / `params` accumulated by `findAll`. -/
structure BuiltWhere where
  whereClause : List String
  params : List JSVal
deriving DecidableEq, Repr

/-- The min/max cross-field guard of `Company.findAll`
(company.js lines 57–63): both thresholds non-nil, both non-NaN, and
`minEmployees > maxEmployees` under the JS `>` operator. -/
def companyRangeGuard (f : CompanyFilter) : Bool :=
  !isNilO f.minEmployees && !isNaNO f.minEmployees &&
  !isNilO f.maxEmployees && !isNaNO f.maxEmployees &&
  jsGTO f.minEmployees f.maxEmployees

/-- The `whereClause`/`params` building of `Company.findAll`
(company.js lines 50–101).  The source's
`if (!isNil(x)) { if (isNaN(x)) throw ... ; push ... }` statements are
rendered as a throw-guard (`present && NaN`) followed by a conditional
append — the same control flow, sequenced through `Except`. -/
def companyBuild (f : CompanyFilter) : Except JErr BuiltWhere :=
  if companyRangeGuard f then
    .error (.badRequest "minEmployees cannot be greater than the maxEmployees")
  else if companyIsEmpty f then .ok ⟨[], []⟩
  else
    let s1 : BuiltWhere :=
      if !isNilO f.name then
        ⟨["name iLIKE $1"], [.str ("%" ++ jsToString (valOf f.name) ++ "%")]⟩
      else ⟨[], []⟩
    if !isNilO f.minEmployees && isNaNO f.minEmployees then
      .error (.badRequest "minEmployees must be of type number")
    else
      let s2 : BuiltWhere :=
        if !isNilO f.minEmployees then
          let placeholder : String :=
            if s1.params.isEmpty then "1" else toString (s1.params.length + 1)
          ⟨s1.whereClause ++ ["num_employees >= $" ++ placeholder],
           s1.params ++ [toNumberV (valOf f.minEmployees)]⟩
        else s1
      if !isNilO f.maxEmployees && isNaNO f.maxEmployees then
        .error (.badRequest "maxEmployees must be of type number")
      else
        let s3 : BuiltWhere :=
          if !isNilO f.maxEmployees then
            let placeholder : String :=
              if s2.params.isEmpty then "1" else toString (s2.params.length + 1)
            ⟨s2.whereClause ++ ["num_employees <= $" ++ placeholder],
             s2.params ++ [toNumberV (valOf f.maxEmployees)]⟩
          else s2
        .ok s3

/-- The `whereClause`/`params` building of `Job.findAll`
(job.js lines 34–62).  `hasEquity === true` is strict equality with the
boolean `true`. -/
def jobBuild (f : JobFilter) : Except JErr BuiltWhere :=
  if jobIsEmpty f then .ok ⟨[], []⟩
  else
    let s1 : BuiltWhere :=
      if !isNilO f.title then
        ⟨["title iLIKE $1"], [.str ("%" ++ jsToString (valOf f.title) ++ "%")]⟩
      else ⟨[], []⟩
    if !isNilO f.minSalary && isNaNO f.minSalary then
      .error (.badRequest "minSalary must be of type number")
    else
      let s2 : BuiltWhere :=
        if !isNilO f.minSalary then
          let placeholder : String :=
            if s1.params.isEmpty then "1" else toString (s1.params.length + 1)
          ⟨s1.whereClause ++ ["salary >= $" ++ placeholder],
           s1.params ++ [toNumberV (valOf f.minSalary)]⟩
        else s1
      let s3 : BuiltWhere :=
        if f.hasEquity = some (.bool true) then
          ⟨s2.whereClause ++ ["equity > 0"], s2.params⟩
        else s2
      .ok s3

/-- The `sqlQuery` template literal of `Company.findAll` version 1
(company.js lines 103–111).  Versions 1 and 2 use character-identical
templates; both are written out so they can be compared. -/
def companySqlTextV1 (whereClause : List String) : String :=
  "SELECT handle,
                  name,
                  description,
                  num_employees AS \"numEmployees\",
                  logo_url AS \"logoUrl\"
           FROM companies " ++
  (if !whereClause.isEmpty then "WHERE " ++ String.intercalate " AND " whereClause
   else "") ++
  "
            ORDER BY name"

/-- The `sqlQuery` template literal of `Company.findAll` version 2
(company.js lines 321–329). -/
def companySqlTextV2 (whereClause : List String) : String :=
  "SELECT handle,
                  name,
                  description,
                  num_employees AS \"numEmployees\",
                  logo_url AS \"logoUrl\"
           FROM companies " ++
  (if !whereClause.isEmpty then "WHERE " ++ String.intercalate " AND " whereClause
   else "") ++
  "
            ORDER BY name"

/-- The `sqlQuery` template literal of `Job.findAll` (job.js lines 64–72). -/
def jobSqlText (whereClause : List String) : String :=
  "SELECT id,
                  title,
                  salary,
                  equity,
                  company_handle AS \"companyHandle\"
           FROM jobs " ++
  (if !whereClause.isEmpty then "WHERE " ++ String.intercalate " AND " whereClause
   else "") ++
  "
            ORDER BY title"

/-- What reaches `db.query`: SQL text plus the bound-parameter list when one
was supplied.  Version 1 passes a `{text, values?}` object whose `values`
field is added only when `params` is non-empty; version 2 either calls
`db.query(sql)` or `db.query(sql, params)`.  Both are an optional
parameter list next to the text. -/
structure SqlQuery where
  text : String
  values : Option (List JSVal)
deriving DecidableEq, Repr

/-- `Company.findAll` version 1 (company.js lines 50–123): builds the query
object `{ text }`, spreading in `values: params` when `params` is
non-empty. -/
def companyFindAllV1 (f : CompanyFilter) : Except JErr SqlQuery :=
  match companyBuild f with
  | .error e => .error e
  | .ok b =>
    let sqlQuery := companySqlTextV1 b.whereClause
    let query : SqlQuery := { text := sqlQuery, values := none }
    let query := if !b.params.isEmpty then { query with values := some b.params } else query
    .ok query

/-- The `whereClause`/`params` building of `Company.findAll` version 2
(company.js lines 268–319) — the second copy of the class carries the same
building code, reproduced here verbatim so the two versions can be
compared. -/
def companyBuildV2 (f : CompanyFilter) : Except JErr BuiltWhere :=
  if companyRangeGuard f then
    .error (.badRequest "minEmployees cannot be greater than the maxEmployees")
  else if companyIsEmpty f then .ok ⟨[], []⟩
  else
    let s1 : BuiltWhere :=
      if !isNilO f.name then
        ⟨["name iLIKE $1"], [.str ("%" ++ jsToString (valOf f.name) ++ "%")]⟩
      else ⟨[], []⟩
    if !isNilO f.minEmployees && isNaNO f.minEmployees then
      .error (.badRequest "minEmployees must be of type number")
    else
      let s2 : BuiltWhere :=
        if !isNilO f.minEmployees then
          let placeholder : String :=
            if s1.params.isEmpty then "1" else toString (s1.params.length + 1)
          ⟨s1.whereClause ++ ["num_employees >= $" ++ placeholder],
           s1.params ++ [toNumberV (valOf f.minEmployees)]⟩
        else s1
      if !isNilO f.maxEmployees && isNaNO f.maxEmployees then
        .error (.badRequest "maxEmployees must be of type number")
      else
        let s3 : BuiltWhere :=
          if !isNilO f.maxEmployees then
            let placeholder : String :=
              if s2.params.isEmpty then "1" else toString (s2.params.length + 1)
            ⟨s2.whereClause ++ ["num_employees <= $" ++ placeholder],
             s2.params ++ [toNumberV (valOf f.maxEmployees)]⟩
          else s2
        .ok s3

/-- The two copies of the building code are the same text, so the same
function. -/
theorem companyBuildV2_eq (f : CompanyFilter) : companyBuildV2 f = companyBuild f := rfl

/-- `Company.findAll` version 2 (company.js lines 268–339): calls
`db.query(sqlQuery)` when `params` is empty, else
`db.query(sqlQuery, params)`. -/
def companyFindAllV2 (f : CompanyFilter) : Except JErr SqlQuery :=
  match companyBuildV2 f with
  | .error e => .error e
  | .ok b =>
    let sqlQuery := companySqlTextV2 b.whereClause
    if b.params.isEmpty then .ok { text := sqlQuery, values := none }
    else .ok { text := sqlQuery, values := some b.params }

/-- `Job.findAll` (job.js lines 34–84): same query-object shape as
`companyFindAllV1`. -/
def jobFindAll (f : JobFilter) : Except JErr SqlQuery :=
  match jobBuild f with
  | .error e => .error e
  | .ok b =>
    let sqlQuery := jobSqlText b.whereClause
    let query : SqlQuery := { text := sqlQuery, values := none }
    let query := if !b.params.isEmpty then { query with values := some b.params } else query
    .ok query

/-- The queries `Company.findAll` v1 hands to the executor: none when it
throws, exactly the one built query otherwise. -/
def companyFindAllV1Queries (f : CompanyFilter) : List SqlQuery :=
  match companyFindAllV1 f with
  | .ok q => [q]
  | .error _ => []

def companyFindAllV2Queries (f : CompanyFilter) : List SqlQuery :=
  match companyFindAllV2 f with
  | .ok q => [q]
  | .error _ => []

def jobFindAllQueries (f : JobFilter) : List SqlQuery :=
  match jobFindAll f with
  | .ok q => [q]
  | .error _ => []

/-- Scanner state while collecting placeholder numbers: outside any
placeholder, right after a `$`, or inside a digit run with its value so
far. -/
inductive PhState where
  | out
  | dollar
  | inNum (n : Nat)

/-- One-pass scan for placeholder numbers: every maximal digit run
immediately following a `$`, in textual order. -/
def phScanA : List Char → PhState → List Nat
  | [], st => match st with | .inNum n => [n] | _ => []
  | c :: rest, st =>
    match st with
    | .out => if c = '$' then phScanA rest .dollar else phScanA rest .out
    | .dollar =>
        if c.isDigit then phScanA rest (.inNum (c.toNat - '0'.toNat))
        else if c = '$' then phScanA rest .dollar
        else phScanA rest .out
    | .inNum n =>
        if c.isDigit then phScanA rest (.inNum (10 * n + (c.toNat - '0'.toNat)))
        else if c = '$' then n :: phScanA rest .dollar
        else n :: phScanA rest .out

def phScan (cs : List Char) : List Nat := phScanA cs .out

/-- All placeholder numbers of a clause list, in emission order. -/
def placeholdersOf (clauses : List String) : List Nat :=
  (clauses.map (fun c => phScan c.toList)).flatten

example : placeholdersOf ["name iLIKE $1", "num_employees >= $2", "equity > 0"]
    = [1, 2] := by decide

/-! ## Database model

The SQL engine is an external collaborator; these interpreters give the
emitted statements their standard SQL meaning over in-memory row lists. -/

/-- A row of the `jobs` table (column values; `salary`/`equity` may be
SQL NULL, modelled by `JSVal.null`). -/
structure JobRow where
  id : JSVal
  title : JSVal
  salary : JSVal
  equity : JSVal
  company_handle : JSVal
deriving DecidableEq, Repr

/-- A row of the `companies` table. -/
structure CompanyRow where
  handle : JSVal
  name : JSVal
  description : JSVal
  num_employees : JSVal
  logo_url : JSVal
deriving DecidableEq, Repr

/-- Does the character list `t` start with `p`? -/
def startsWithCh : List Char → List Char → Bool
  | _, [] => true
  | [], _ :: _ => false
  | a :: s, b :: t => a = b && startsWithCh s t

/-- Does `t` occur as a contiguous run inside `s`? -/
def containsSub (s t : List Char) : Bool :=
  match s with
  | [] => t.isEmpty
  | _ :: rest => startsWithCh s t || containsSub rest t

def lowerChars (s : String) : List Char := s.toList.map Char.toLower

/-- SQL `col ILIKE '%t%'` where the bound pattern value wraps `t` in
wildcards: case-insensitive substring match; false on NULL / non-text. -/
def sqlILikeContains (col : JSVal) (pat : Option JSVal) : Bool :=
  match col, pat with
  | .str s, some (.str p) =>
      let t := (p.toList.drop 1).dropLast
      containsSub (s.toList.map Char.toLower) (t.map Char.toLower)
  | _, _ => false

/-- SQL `col >= $n`: NULL compares unknown (excluded); numeric otherwise. -/
def sqlGe (col : JSVal) (bound : Option JSVal) : Bool :=
  match col, bound with
  | .num a, some (.num b) => decide (b ≤ a)
  | _, _ => false

/-- SQL `col > 0`: true exactly for a positive numeric value. -/
def sqlGtZero (col : JSVal) : Bool :=
  match col with
  | .num a => decide (0 < a)
  | _ => false

/-- Sort key used by `ORDER BY title` / the aggregated-jobs subquery. -/
def titleKey (r : JobRow) : String := jsToString r.title

/-- `ORDER BY title` as a total preorder on job rows. -/
def titleLe (a b : JobRow) : Prop := titleKey a ≤ titleKey b

instance : DecidableRel titleLe := fun a b => by
  unfold titleLe; infer_instance

instance : IsTotal JobRow titleLe := ⟨fun a b => le_total (titleKey a) (titleKey b)⟩

instance : IsTrans JobRow titleLe := ⟨fun _ _ _ h h' => le_trans h h'⟩

/-- Meaning of one emitted WHERE predicate of `Job.findAll` on one row. -/
def evalJobClause (r : JobRow) (params : List JSVal) (c : String) : Bool :=
  if c = "equity > 0" then sqlGtZero r.equity
  else if c = "title iLIKE $1" then sqlILikeContains r.title (params.get? 0)
  else if startsWithCh c.toList "salary >= $".toList then
    let k := digitsVal ((c.toList.drop 11).takeWhile Char.isDigit)
    sqlGe r.salary (params.get? (k - 1))
  else false

/-- Run `Job.findAll`: build the query, then filter and `ORDER BY title`. -/
def runJobFindAll (db : List JobRow) (f : JobFilter) :
    Except JErr (List JobRow) :=
  match jobBuild f with
  | .error e => .error e
  | .ok b =>
    .ok (List.insertionSort titleLe
          (db.filter (fun r => b.whereClause.all (evalJobClause r b.params))))

/-! ## `update` — `Company.update` and `Job.update` -/

/-- The `querySql` template literal of `Job.update` (job.js lines 126–133),
with `setCols` and `handleVarIdx` spliced in. -/
def jobUpdateText (setCols : String) (handleVarIdx : String) : String :=
  "UPDATE jobs
                      SET " ++ setCols ++ "
                      WHERE id = " ++ handleVarIdx ++ "
                      RETURNING id,
                                title,
                                salary,
                                equity,
                                company_handle AS \"companyHandle\""

/-- The `querySql` template literal of `Company.update`
(company.js lines 183–190). -/
def companyUpdateText (setCols : String) (handleVarIdx : String) : String :=
  "UPDATE companies
                      SET " ++ setCols ++ "
                      WHERE handle = " ++ handleVarIdx ++ "
                      RETURNING handle,
                                name,
                                description,
                                num_employees AS \"numEmployees\",
                                logo_url AS \"logoUrl\""

/-- The field-name translation `Company.update` passes to
`sqlForPartialUpdate` (company.js lines 177–180). -/
def companyJsToSql : List (String × String) :=
  [("numEmployees", "num_employees"), ("logoUrl", "logo_url")]

/-- `Job.update` up to and including the `db.query` argument
(job.js lines 122–134): the single UPDATE statement and its bound
parameters `[...values, id]`. -/
def jobUpdatePlan (idv : JSVal) (data : List (String × JSVal)) :
    Except JErr SqlQuery :=
  match sqlForPartialUpdate data [] with
  | .error e => .error e
  | .ok parts =>
    let handleVarIdx := "$" ++ toString (parts.values.length + 1)
    .ok { text := jobUpdateText parts.setCols handleVarIdx
          values := some (parts.values ++ [idv]) }

/-- `Company.update` up to and including the `db.query` argument
(company.js lines 176–191). -/
def companyUpdatePlan (hv : JSVal) (data : List (String × JSVal)) :
    Except JErr SqlQuery :=
  match sqlForPartialUpdate data companyJsToSql with
  | .error e => .error e
  | .ok parts =>
    let handleVarIdx := "$" ++ toString (parts.values.length + 1)
    .ok { text := companyUpdateText parts.setCols handleVarIdx
          values := some (parts.values ++ [hv]) }

/-- The UPDATE statements `Job.update` issues: none when the builder
throws, exactly one otherwise. -/
def jobUpdateQueries (idv : JSVal) (data : List (String × JSVal)) :
    List SqlQuery :=
  match jobUpdatePlan idv data with
  | .ok q => [q]
  | .error _ => []

def companyUpdateQueries (hv : JSVal) (data : List (String × JSVal)) :
    List SqlQuery :=
  match companyUpdatePlan hv data with
  | .ok q => [q]
  | .error _ => []

def jobColumns : List String := ["id", "title", "salary", "equity", "company_handle"]

def companyColumns : List String :=
  ["handle", "name", "description", "num_employees", "logo_url"]

/-- Apply one `"<column>"=$n` assignment to a jobs row (the placeholder's
bound value is the paired `JSVal`).  Unknown columns are rejected before
this function runs. -/
def applyJobSet (r : JobRow) (kv : String × JSVal) : JobRow :=
  match kv.1 with
  | "id" => { r with id := kv.2 }
  | "title" => { r with title := kv.2 }
  | "salary" => { r with salary := kv.2 }
  | "equity" => { r with equity := kv.2 }
  | "company_handle" => { r with company_handle := kv.2 }
  | _ => r

def applyCompanySet (r : CompanyRow) (kv : String × JSVal) : CompanyRow :=
  match kv.1 with
  | "handle" => { r with handle := kv.2 }
  | "name" => { r with name := kv.2 }
  | "description" => { r with description := kv.2 }
  | "num_employees" => { r with num_employees := kv.2 }
  | "logo_url" => { r with logo_url := kv.2 }
  | _ => r

/-- Run `Job.update` (job.js lines 122–138) against an in-memory `jobs`
table: build the statement (propagating the builder's "No data" error),
have the engine reject an unknown SET column, update every row whose `id`
matches the final bound parameter, return the first RETURNING row and the
post-state table, or throw `NotFoundError` when none matched. -/
def runJobUpdate (db : List JobRow) (idv : JSVal)
    (data : List (String × JSVal)) : Except JErr (JobRow × List JobRow) :=
  match sqlForPartialUpdate data [] with
  | .error e => .error e
  | .ok _parts =>
    let setPairs := data.map (fun kv => (resolveCol [] kv.1, kv.2))
    if setPairs.any (fun kv => !jobColumns.contains kv.1) then
      .error (.sqlError "column of UPDATE jobs does not exist")
    else
      let newDb := db.map
        (fun r => if sqlEqB r.id idv then setPairs.foldl applyJobSet r else r)
      let returned := (db.filter (fun r => sqlEqB r.id idv)).map
        (fun r => setPairs.foldl applyJobSet r)
      match returned with
      | [] => .error (.notFound ("No job: " ++ jsToString idv))
      | job :: _ => .ok (job, newDb)

/-- Run `Company.update` (company.js lines 176–196) against an in-memory
`companies` table. -/
def runCompanyUpdate (db : List CompanyRow) (hv : JSVal)
    (data : List (String × JSVal)) :
    Except JErr (CompanyRow × List CompanyRow) :=
  match sqlForPartialUpdate data companyJsToSql with
  | .error e => .error e
  | .ok _parts =>
    let setPairs := data.map (fun kv => (resolveCol companyJsToSql kv.1, kv.2))
    if setPairs.any (fun kv => !companyColumns.contains kv.1) then
      .error (.sqlError "column of UPDATE companies does not exist")
    else
      let newDb := db.map
        (fun r => if sqlEqB r.handle hv then setPairs.foldl applyCompanySet r else r)
      let returned := (db.filter (fun r => sqlEqB r.handle hv)).map
        (fun r => setPairs.foldl applyCompanySet r)
      match returned with
      | [] => .error (.notFound ("No company: " ++ jsToString hv))
      | company :: _ => .ok (company, newDb)

/-! ## `Company.get` — versions 1 and 2 -/

/-- The contents of the `companies` and `jobs` tables. -/
structure Db where
  companies : List CompanyRow
  jobs : List JobRow
deriving Repr

/-- The record `Company.get` returns.  `jobs` is `Option`-valued to record
whether the returned object has a `jobs` property at all: version 1 selects
an aggregated `jobs` column, version 2 selects only the five company
columns, so its rows carry no `jobs` property (`none`). -/
structure CompanyGetRecord where
  handle : JSVal
  name : JSVal
  description : JSVal
  numEmployees : JSVal
  logoUrl : JSVal
  jobs : Option (List JobRow)
deriving DecidableEq, Repr

/-- `Company.get` version 1 (company.js lines 133–162): select the company
row matching the handle, left-outer-joined against its jobs (subquery
ordered by title), aggregated per company; `CASE WHEN COUNT(j) = 0 THEN
ARRAY[]::JSON[] ELSE ARRAY_AGG(j.job) END` turns the NULL an aggregate over
no jobs would produce into an empty array. -/
def companyGetV1 (db : Db) (handle : JSVal) : Except JErr CompanyGetRecord :=
  match db.companies.filter (fun c => sqlEqB c.handle handle) with
  | [] => .error (.notFound ("No company: " ++ jsToString handle))
  | c :: _ =>
    let matching := List.insertionSort titleLe
      (db.jobs.filter (fun j => sqlEqB j.company_handle c.handle))
    let rawAgg : Option (List JobRow) :=
      if matching.isEmpty then none else some matching
    let jobsField : List JobRow :=
      match rawAgg with
      | none => []
      | some l => l
    .ok { handle := c.handle, name := c.name, description := c.description
          numEmployees := c.num_employees, logoUrl := c.logo_url
          jobs := some jobsField }

/-- `Company.get` version 2 (company.js lines 349–366): a plain five-column
select; the returned row has no `jobs` property. -/
def companyGetV2 (db : Db) (handle : JSVal) : Except JErr CompanyGetRecord :=
  match db.companies.filter (fun c => sqlEqB c.handle handle) with
  | [] => .error (.notFound ("No company: " ++ jsToString handle))
  | c :: _ =>
    .ok { handle := c.handle, name := c.name, description := c.description
          numEmployees := c.num_employees, logoUrl := c.logo_url
          jobs := none }

/-! ## Supporting lemmas -/

/-- On non-empty input `sqlForPartialUpdate` succeeds, with one fragment per
key and the values in key order. -/
theorem sqlForPartialUpdate_eq_ok (data : List (String × JSVal))
    (jsToSql : List (String × String)) (h : data ≠ []) :
    sqlForPartialUpdate data jsToSql =
      .ok { setCols := String.intercalate ", "
              ((data.map Prod.fst).enum.map
                (fun p => "\"" ++ resolveCol jsToSql p.2 ++ "\"=$" ++ toString (p.1 + 1)))
            values := data.map Prod.snd } := by
  have hlen : ¬ (data.map Prod.fst).length = 0 := by
    simp only [List.length_map, List.length_eq_zero]
    exact h
  simp only [sqlForPartialUpdate, if_neg hlen]

/-! ## Claims -/

/-- C1: for every non-empty field mapping and every translation mapping,
`sqlForPartialUpdate` returns `setCols` containing exactly one assignment
fragment per key of the mapping, in iteration order, the `i`-th (0-based)
being `"<column>"=$(i+1)` with contiguous positions `1..n`, where the
column is the translation's entry for the key when present (and truthy)
else the key itself; and `values` is the mapping's values in the same
order, of length `n`. -/
theorem partialUpdate_fragment_per_key (data : List (String × JSVal))
    (jsToSql : List (String × String)) (h : data ≠ []) :
    ∃ parts, sqlForPartialUpdate data jsToSql = .ok parts ∧
      parts.values = data.map Prod.snd ∧
      parts.values.length = data.length ∧
      ∃ frags : List String,
        parts.setCols = String.intercalate ", " frags ∧
        frags.length = data.length ∧
        ∀ i k v, data[i]? = some (k, v) →
          frags[i]? = some ("\"" ++ resolveCol jsToSql k ++ "\"=$" ++ toString (i + 1)) := by
  refine ⟨_, sqlForPartialUpdate_eq_ok data jsToSql h, rfl, by simp, ?_⟩
  refine ⟨_, rfl, by simp, ?_⟩
  intro i k v hi
  simp [List.getElem?_map, List.getElem?_enum, hi]

/-- Witness for C1 at the spec's own example
`{firstName: "Zahra", age: 5}` with translation `{firstName: "first_name"}`. -/
theorem partialUpdate_fragment_per_key_witness :
    ∃ parts,
      sqlForPartialUpdate [("firstName", .str "Zahra"), ("age", .num 5)]
          [("firstName", "first_name")] = .ok parts ∧
      parts.values = ([("firstName", JSVal.str "Zahra"), ("age", JSVal.num 5)].map Prod.snd) ∧
      parts.values.length = [("firstName", JSVal.str "Zahra"), ("age", JSVal.num 5)].length ∧
      ∃ frags : List String,
        parts.setCols = String.intercalate ", " frags ∧
        frags.length = [("firstName", JSVal.str "Zahra"), ("age", JSVal.num 5)].length ∧
        ∀ i k v, [("firstName", JSVal.str "Zahra"), ("age", JSVal.num 5)][i]? = some (k, v) →
          frags[i]? = some ("\"" ++ resolveCol [("firstName", "first_name")] k
                            ++ "\"=$" ++ toString (i + 1)) :=
  partialUpdate_fragment_per_key _ _ (by decide)

/-- Whenever `Company.findAll`'s building succeeds, the placeholder numbers
in the emitted predicates are exactly `1..params.length`. -/
theorem companyBuild_placeholders (f : CompanyFilter) (cb : BuiltWhere)
    (hc : companyBuild f = .ok cb) :
    placeholdersOf cb.whereClause = List.range' 1 cb.params.length := by
  cases hg : companyRangeGuard f <;>
  cases he : companyIsEmpty f <;>
  cases hn : isNilO f.name <;>
  cases hmn : isNilO f.minEmployees <;>
  cases hmN : isNaNO f.minEmployees <;>
  cases hxn : isNilO f.maxEmployees <;>
  cases hxN : isNaNO f.maxEmployees <;>
  simp only [companyBuild, hg, he, hn, hmn, hmN, hxn, hxN] at hc <;>
  simp at hc <;>
  (subst hc; simp +decide)

/-- Whenever `Job.findAll`'s building succeeds, the placeholder numbers in
the emitted predicates are exactly `1..params.length`; the `equity > 0`
predicate contributes none. -/
theorem jobBuild_placeholders (g : JobFilter) (jb : BuiltWhere)
    (hj : jobBuild g = .ok jb) :
    placeholdersOf jb.whereClause = List.range' 1 jb.params.length := by
  by_cases hq : g.hasEquity = some (JSVal.bool true) <;>
  cases he : jobIsEmpty g <;>
  cases ht : isNilO g.title <;>
  cases hms : isNilO g.minSalary <;>
  cases hmN : isNaNO g.minSalary <;>
  simp only [jobBuild, hq, he, ht, hms, hmN] at hj <;>
  simp [hq] at hj <;>
  (subst hj; simp +decide)

/-- C2: for every filter mapping on which `Company.findAll` or
`Job.findAll` succeeds, the placeholder numbers appearing in the emitted
WHERE-clause predicates are exactly `$1..$k`, contiguous and in order,
where `k` is the length of the bound-parameter list (so a skipped text
filter leaves the first numeric filter at `$1`, and the parameterless
equity predicate consumes no number). -/
theorem findAll_placeholders_contiguous (f : CompanyFilter) (g : JobFilter)
    (cb jb : BuiltWhere)
    (hc : companyBuild f = .ok cb) (hj : jobBuild g = .ok jb) :
    placeholdersOf cb.whereClause = List.range' 1 cb.params.length ∧
    placeholdersOf jb.whereClause = List.range' 1 jb.params.length :=
  ⟨companyBuild_placeholders f cb hc, jobBuild_placeholders g jb hj⟩

/-- Witness for C2: a company filter with no text filter whose first
numeric predicate takes `$1`, and a job filter with all three filters
whose equity predicate consumes no placeholder. -/
theorem findAll_placeholders_contiguous_witness :
    placeholdersOf (BuiltWhere.mk ["num_employees >= $1", "num_employees <= $2"]
        [JSVal.num 3, JSVal.num 20]).whereClause
      = List.range' 1 (BuiltWhere.mk ["num_employees >= $1", "num_employees <= $2"]
        [JSVal.num 3, JSVal.num 20]).params.length ∧
    placeholdersOf (BuiltWhere.mk ["title iLIKE $1", "salary >= $2", "equity > 0"]
        [JSVal.str "%ux%", JSVal.num 5]).whereClause
      = List.range' 1 (BuiltWhere.mk ["title iLIKE $1", "salary >= $2", "equity > 0"]
        [JSVal.str "%ux%", JSVal.num 5]).params.length :=
  findAll_placeholders_contiguous
    ⟨none, some (.num 3), some (.num 20)⟩
    ⟨some (.str "ux"), some (.num 5), some (.bool true)⟩
    _ _ (by decide) (by decide)

/-- C3: `sqlForPartialUpdate` fails with the bad-request error "No data"
iff its input mapping is empty — any non-empty mapping (unknown keys,
arbitrary values) is accepted — and both `Company.update` and `Job.update`
on an empty mapping fail with that same error having issued no query. -/
theorem noData_error_iff_empty :
    (∀ (data : List (String × JSVal)) (jsToSql : List (String × String)),
        sqlForPartialUpdate data jsToSql = .error (.badRequest "No data") ↔ data = []) ∧
    (∀ (data : List (String × JSVal)) (jsToSql : List (String × String)),
        data ≠ [] → ∃ parts, sqlForPartialUpdate data jsToSql = .ok parts) ∧
    (∀ (db : List JobRow) (idv : JSVal),
        runJobUpdate db idv [] = .error (.badRequest "No data") ∧
        jobUpdateQueries idv [] = []) ∧
    (∀ (db : List CompanyRow) (hv : JSVal),
        runCompanyUpdate db hv [] = .error (.badRequest "No data") ∧
        companyUpdateQueries hv [] = []) := by
  refine ⟨?_, ?_, ?_, ?_⟩
  · intro data jsToSql
    constructor
    · intro herr
      by_contra hne
      rw [sqlForPartialUpdate_eq_ok data jsToSql hne] at herr
      exact Except.noConfusion herr
    · rintro rfl
      rfl
  · intro data jsToSql h
    exact ⟨_, sqlForPartialUpdate_eq_ok data jsToSql h⟩
  · intro db idv
    constructor
    · rfl
    · rfl
  · intro db hv
    constructor
    · rfl
    · rfl

set_option maxRecDepth 4000 in
/-- C4 (failing-input evaluation): with both thresholds present as the
numeric strings "10" and "9" — a minimum of 10 exceeding a maximum of 9,
as the code itself confirms by binding the parameters 10 and 9 —
`Company.findAll` does not throw the range-conflict error: the JS `>`
operator compares two strings lexicographically (`"10" < "9"`), so the
guard passes, both threshold clauses are built, and a query is issued. -/
theorem companyFindAll_range_guard_misses_string_thresholds :
    toNumberOpt (.str "10") = some 10 ∧
    toNumberOpt (.str "9") = some 9 ∧
    (10 : ℚ) > 9 ∧
    companyRangeGuard ⟨none, some (.str "10"), some (.str "9")⟩ = false ∧
    companyBuild ⟨none, some (.str "10"), some (.str "9")⟩ =
      .ok ⟨["num_employees >= $1", "num_employees <= $2"],
           [JSVal.num 10, JSVal.num 9]⟩ ∧
    companyFindAllV1Queries ⟨none, some (.str "10"), some (.str "9")⟩ =
      [{ text := companySqlTextV1 ["num_employees >= $1", "num_employees <= $2"]
         values := some [JSVal.num 10, JSVal.num 9] }] := by
  decide

/-- Option with a non-nil value (needed to get from lodash `isNil` to
lodash `isEmpty`). -/
theorem isNone_false_of_isNil_false {o : Option JSVal}
    (h : isNilO o = false) : o.isNone = false := by
  cases o with
  | none => simp [isNilO] at h
  | some v => rfl

/-- C5: when a numeric-threshold key is present but its value fails to
parse as a number (`minEmployees` / `maxEmployees` for companies,
`minSalary` for jobs — the `maxEmployees` case assuming `minEmployees` did
not already fail), `findAll` fails with the "must be of type number" error
naming that key, and no query is issued. -/
theorem numeric_filter_type_error (f : CompanyFilter) (g : JobFilter) :
    (isNilO f.minEmployees = false → isNaNO f.minEmployees = true →
      companyBuild f = .error (.badRequest "minEmployees must be of type number") ∧
      companyFindAllV1Queries f = [] ∧ companyFindAllV2Queries f = []) ∧
    ((isNilO f.minEmployees = true ∨ isNaNO f.minEmployees = false) →
      isNilO f.maxEmployees = false → isNaNO f.maxEmployees = true →
      companyBuild f = .error (.badRequest "maxEmployees must be of type number") ∧
      companyFindAllV1Queries f = [] ∧ companyFindAllV2Queries f = []) ∧
    (isNilO g.minSalary = false → isNaNO g.minSalary = true →
      jobBuild g = .error (.badRequest "minSalary must be of type number") ∧
      jobFindAllQueries g = []) := by
  refine ⟨?_, ?_, ?_⟩
  · intro h1 h2
    have hg : companyRangeGuard f = false := by
      simp [companyRangeGuard, h2]
    have he : companyIsEmpty f = false := by
      simp [companyIsEmpty, isNone_false_of_isNil_false h1]
    have hb : companyBuild f
        = .error (.badRequest "minEmployees must be of type number") := by
      simp [companyBuild, hg, he, h1, h2]
    exact ⟨hb, by simp [companyFindAllV1Queries, companyFindAllV1, hb],
           by simp [companyFindAllV2Queries, companyFindAllV2, companyBuildV2_eq, hb]⟩
  · intro h1 h2 h3
    have hg : companyRangeGuard f = false := by
      simp [companyRangeGuard, h3]
    have he : companyIsEmpty f = false := by
      simp [companyIsEmpty, isNone_false_of_isNil_false h2]
    have hmin : (!isNilO f.minEmployees && isNaNO f.minEmployees) = false := by
      rcases h1 with h1 | h1 <;> simp [h1]
    have hb : companyBuild f
        = .error (.badRequest "maxEmployees must be of type number") := by
      simp [companyBuild, hg, he, hmin, h2, h3]
    exact ⟨hb, by simp [companyFindAllV1Queries, companyFindAllV1, hb],
           by simp [companyFindAllV2Queries, companyFindAllV2, companyBuildV2_eq, hb]⟩
  · intro h1 h2
    have he : jobIsEmpty g = false := by
      simp [jobIsEmpty, isNone_false_of_isNil_false h1]
    have hb : jobBuild g
        = .error (.badRequest "minSalary must be of type number") := by
      simp [jobBuild, he, h1, h2]
    exact ⟨hb, by simp [jobFindAllQueries, jobFindAll, hb]⟩

/-- Witness for C5 at `{minEmployees: "abc"}`, `{maxEmployees: "xyz"}` and
`{minSalary: "abc"}`. -/
theorem numeric_filter_type_error_witness :
    (companyBuild ⟨none, some (.str "abc"), none⟩
       = .error (.badRequest "minEmployees must be of type number") ∧
     companyFindAllV1Queries ⟨none, some (.str "abc"), none⟩ = [] ∧
     companyFindAllV2Queries ⟨none, some (.str "abc"), none⟩ = []) ∧
    (companyBuild ⟨none, none, some (.str "xyz")⟩
       = .error (.badRequest "maxEmployees must be of type number") ∧
     companyFindAllV1Queries ⟨none, none, some (.str "xyz")⟩ = [] ∧
     companyFindAllV2Queries ⟨none, none, some (.str "xyz")⟩ = []) ∧
    (jobBuild ⟨none, some (.str "abc"), none⟩
       = .error (.badRequest "minSalary must be of type number") ∧
     jobFindAllQueries ⟨none, some (.str "abc"), none⟩ = []) := by
  refine ⟨?_, ?_, ?_⟩
  · exact (numeric_filter_type_error ⟨none, some (.str "abc"), none⟩
      ⟨none, none, none⟩).1 (by decide) (by decide)
  · exact (numeric_filter_type_error ⟨none, none, some (.str "xyz")⟩
      ⟨none, none, none⟩).2.1 (by decide) (by decide) (by decide)
  · exact (numeric_filter_type_error ⟨none, none, none⟩
      ⟨none, some (.str "abc"), none⟩).2.2 (by decide) (by decide)

/-- A present non-null value is not nil. -/
theorem isNilO_some_eq_false {v : JSVal} (h : v ≠ JSVal.null) :
    isNilO (some v) = false := by
  cases v <;> first | rfl | exact absurd rfl h

/-- The `equity > 0` predicate is emitted exactly when `hasEquity` is the
boolean `true`. -/
theorem jobBuild_equity_mem (t m h : Option JSVal) (b : BuiltWhere)
    (hb : jobBuild ⟨t, m, h⟩ = .ok b) :
    ("equity > 0" ∈ b.whereClause ↔ h = some (JSVal.bool true)) := by
  rcases h with _ | hv
  all_goals try by_cases hq : hv = JSVal.bool true
  all_goals
    rcases t with _ | tv <;> rcases m with _ | mv <;>
    (try by_cases hTn : tv = JSVal.null) <;>
    (try by_cases hMn : mv = JSVal.null) <;>
    (try cases hN : isNaNO (some mv)) <;>
    simp_all [jobBuild, jobIsEmpty, isNilO, isNaNO, toNumberOpt, isNilO_some_eq_false,
      Option.isSome_iff_ne_none] <;>
    (try subst hb) <;> (try simp +decide)

/-- Turning `hasEquity` from absent to `true` appends exactly the
parameterless `equity > 0` predicate. -/
theorem jobBuild_equity_append (t m : Option JSVal) (b0 : BuiltWhere)
    (hb : jobBuild ⟨t, m, none⟩ = .ok b0) :
    jobBuild ⟨t, m, some (JSVal.bool true)⟩ =
      .ok ⟨b0.whereClause ++ ["equity > 0"], b0.params⟩ := by
  rcases t with _ | tv <;> rcases m with _ | mv <;>
  (try by_cases hTn : tv = JSVal.null) <;>
  (try by_cases hMn : mv = JSVal.null) <;>
  (try cases hN : isNaNO (some mv)) <;>
  simp_all [jobBuild, jobIsEmpty, isNilO, isNaNO, toNumberOpt, isNilO_some_eq_false,
    Option.isSome_iff_ne_none] <;>
  (try subst hb) <;> (try simp +decide)

/-- `hasEquity: false` and `hasEquity` absent build the same query. -/
theorem jobBuild_false_eq_none (t m : Option JSVal) :
    jobBuild ⟨t, m, some (JSVal.bool false)⟩ = jobBuild ⟨t, m, none⟩ := by
  rcases t with _ | tv <;> rcases m with _ | mv <;>
  (try by_cases hTn : tv = JSVal.null) <;>
  (try by_cases hMn : mv = JSVal.null) <;>
  (try cases hN : isNaNO (some mv)) <;>
  simp_all [jobBuild, jobIsEmpty, isNilO, isNaNO, toNumberOpt, isNilO_some_eq_false,
    Option.isSome_iff_ne_none]

/-- C6: `Job.findAll` emits the parameterless `equity > 0` predicate
exactly when `hasEquity` is the boolean `true` (turning `hasEquity` on
appends that predicate and nothing else, binding no parameter), and with
`hasEquity: false` it returns the same rows as with `hasEquity` absent,
over every underlying row set. -/
theorem hasEquity_predicate_iff_true (f : JobFilter) (db : List JobRow) :
    (∀ b, jobBuild f = .ok b →
        ("equity > 0" ∈ b.whereClause ↔ f.hasEquity = some (JSVal.bool true))) ∧
    (∀ b0, jobBuild { f with hasEquity := none } = .ok b0 →
        jobBuild { f with hasEquity := some (JSVal.bool true) } =
          .ok ⟨b0.whereClause ++ ["equity > 0"], b0.params⟩) ∧
    runJobFindAll db { f with hasEquity := some (JSVal.bool false) } =
      runJobFindAll db { f with hasEquity := none } := by
  refine ⟨?_, ?_, ?_⟩
  · intro b hb
    exact jobBuild_equity_mem f.title f.minSalary f.hasEquity b hb
  · intro b0 hb
    exact jobBuild_equity_append f.title f.minSalary b0 hb
  · show (match jobBuild ⟨f.title, f.minSalary, some (JSVal.bool false)⟩ with
      | Except.error e => (Except.error e : Except JErr (List JobRow))
      | Except.ok b => Except.ok (List.insertionSort titleLe
          (db.filter (fun r => b.whereClause.all (evalJobClause r b.params))))) = _
    rw [jobBuild_false_eq_none]
    rfl

/-- Witness for C6 at `{title: "ux"}` with the three `hasEquity` settings
and a two-row table whose zero-equity row survives only without the
`hasEquity: true` filter. -/
theorem hasEquity_predicate_iff_true_witness :
    (∀ b, jobBuild ⟨some (.str "ux"), none, some (.bool true)⟩ = .ok b →
        ("equity > 0" ∈ b.whereClause ↔
          (some (JSVal.bool true) : Option JSVal) = some (JSVal.bool true))) ∧
    (∀ b0, jobBuild ⟨some (.str "ux"), none, none⟩ = .ok b0 →
        jobBuild ⟨some (.str "ux"), none, some (JSVal.bool true)⟩ =
          .ok ⟨b0.whereClause ++ ["equity > 0"], b0.params⟩) ∧
    runJobFindAll
        [⟨.num 1, .str "UX Designer", .num 60000, .num 1, .str "c1"⟩]
        ⟨some (.str "ux"), none, some (.bool false)⟩ =
      runJobFindAll
        [⟨.num 1, .str "UX Designer", .num 60000, .num 1, .str "c1"⟩]
        ⟨some (.str "ux"), none, none⟩ := by
  obtain ⟨h1, h2, h3⟩ := hasEquity_predicate_iff_true
    ⟨some (.str "ux"), none, some (.bool true)⟩
    [⟨.num 1, .str "UX Designer", .num 60000, .num 1, .str "c1"⟩]
  refine ⟨h1, ?_, ?_⟩
  · exact (hasEquity_predicate_iff_true
      ⟨some (.str "ux"), none, none⟩ []).2.1
  · exact (hasEquity_predicate_iff_true
      ⟨some (.str "ux"), none, none⟩
      [⟨.num 1, .str "UX Designer", .num 60000, .num 1, .str "c1"⟩]).2.2

/-- The empty translation mapping translates nothing. -/
theorem resolveCol_nil (k : String) : resolveCol [] k = k := rfl

/-- C7: for every non-empty partial-update mapping with `n` fields,
`Job.update` and `Company.update` issue exactly one UPDATE statement — its
SET clause the builder's fragments `"<col>"=$1 .. "<col>"=$n`, its WHERE
clause comparing the primary key to `$(n+1)`, its bound parameters the
builder's `n` values followed by the key — and (when the mapping's
translated fields are actual table columns, so the engine accepts the
statement) return the first matching row with the assignments applied, or
fail with the "not found" error when no row matches the key. -/
theorem update_one_statement_shape
    (idv hv : JSVal) (dataJ dataC : List (String × JSVal))
    (hJ : dataJ ≠ []) (hC : dataC ≠ [])
    (dbJ : List JobRow) (dbC : List CompanyRow) :
    ((∃ parts, sqlForPartialUpdate dataJ [] = .ok parts ∧
        parts.values = dataJ.map Prod.snd ∧
        parts.values.length = dataJ.length ∧
        parts.setCols = String.intercalate ", "
          ((dataJ.map Prod.fst).enum.map
            (fun p => "\"" ++ resolveCol [] p.2 ++ "\"=$" ++ toString (p.1 + 1))) ∧
        jobUpdateQueries idv dataJ =
          [{ text := jobUpdateText parts.setCols ("$" ++ toString (dataJ.length + 1))
             values := some (dataJ.map Prod.snd ++ [idv]) }]) ∧
      ((∀ k ∈ dataJ.map Prod.fst, k ∈ jobColumns) →
        (dbJ.filter (fun r => sqlEqB r.id idv) = [] →
          runJobUpdate dbJ idv dataJ =
            .error (.notFound ("No job: " ++ jsToString idv))) ∧
        (∀ r rest, dbJ.filter (fun r => sqlEqB r.id idv) = r :: rest →
          ∃ newDb, runJobUpdate dbJ idv dataJ =
            .ok ((dataJ.map (fun kv => (resolveCol [] kv.1, kv.2))).foldl
                   applyJobSet r, newDb)))) ∧
    ((∃ parts, sqlForPartialUpdate dataC companyJsToSql = .ok parts ∧
        parts.values = dataC.map Prod.snd ∧
        parts.values.length = dataC.length ∧
        parts.setCols = String.intercalate ", "
          ((dataC.map Prod.fst).enum.map
            (fun p => "\"" ++ resolveCol companyJsToSql p.2 ++ "\"=$" ++ toString (p.1 + 1))) ∧
        companyUpdateQueries hv dataC =
          [{ text := companyUpdateText parts.setCols ("$" ++ toString (dataC.length + 1))
             values := some (dataC.map Prod.snd ++ [hv]) }]) ∧
      ((∀ k ∈ dataC.map Prod.fst,
          resolveCol companyJsToSql k ∈ companyColumns) →
        (dbC.filter (fun r => sqlEqB r.handle hv) = [] →
          runCompanyUpdate dbC hv dataC =
            .error (.notFound ("No company: " ++ jsToString hv))) ∧
        (∀ r rest, dbC.filter (fun r => sqlEqB r.handle hv) = r :: rest →
          ∃ newDb, runCompanyUpdate dbC hv dataC =
            .ok ((dataC.map (fun kv => (resolveCol companyJsToSql kv.1, kv.2))).foldl
                   applyCompanySet r, newDb)))) := by
  have hokJ := sqlForPartialUpdate_eq_ok dataJ [] hJ
  have hokC := sqlForPartialUpdate_eq_ok dataC companyJsToSql hC
  refine ⟨⟨⟨_, hokJ, rfl, by simp, rfl, ?_⟩, ?_⟩, ⟨⟨_, hokC, rfl, by simp, rfl, ?_⟩, ?_⟩⟩
  · simp [jobUpdateQueries, jobUpdatePlan, hokJ]
  · intro hcols
    have hany : ∀ (a : String) (b : JSVal), (a, b) ∈ dataJ → resolveCol [] a ∈ jobColumns :=
      fun a b hab => hcols a (List.mem_map_of_mem _ hab)
    constructor
    · intro hfil
      (simp [runJobUpdate, hokJ, hfil]; exact hany)
    · intro r rest hfil
      refine ⟨dbJ.map (fun row => if sqlEqB row.id idv then
        (dataJ.map (fun kv => (resolveCol [] kv.1, kv.2))).foldl applyJobSet row
        else row), ?_⟩
      (simp [runJobUpdate, hokJ, hfil]; exact hany)
  · simp [companyUpdateQueries, companyUpdatePlan, hokC]
  · intro hcols
    have hany : ∀ (a : String) (b : JSVal), (a, b) ∈ dataC →
        resolveCol companyJsToSql a ∈ companyColumns :=
      fun a b hab => hcols a (List.mem_map_of_mem _ hab)
    constructor
    · intro hfil
      (simp [runCompanyUpdate, hokC, hfil]; exact hany)
    · intro r rest hfil
      refine ⟨dbC.map (fun row => if sqlEqB row.handle hv then
        (dataC.map (fun kv => (resolveCol companyJsToSql kv.1, kv.2))).foldl applyCompanySet row
        else row), ?_⟩
      (simp [runCompanyUpdate, hokC, hfil]; exact hany)

set_option maxRecDepth 10000 in
/-- Witness for C7: updating a job title and a company employee count
issues the expected single statement, returns the updated row when the key
matches, and throws "not found" on an empty table. -/
theorem update_one_statement_shape_witness :
    jobUpdateQueries (JSVal.num 1) [("title", JSVal.str "New")] =
      [{ text := jobUpdateText "\"title\"=$1" "$2"
         values := some [JSVal.str "New", JSVal.num 1] }] ∧
    runJobUpdate [] (JSVal.num 1) [("title", JSVal.str "New")] =
      .error (.notFound ("No job: " ++ jsToString (JSVal.num 1))) ∧
    (∃ newDb,
      runJobUpdate [⟨JSVal.num 1, JSVal.str "Old", JSVal.null, JSVal.null, JSVal.str "c1"⟩]
          (JSVal.num 1) [("title", JSVal.str "New")] =
        .ok ((([("title", JSVal.str "New")].map
                (fun kv => (resolveCol [] kv.1, kv.2))).foldl applyJobSet
              ⟨JSVal.num 1, JSVal.str "Old", JSVal.null, JSVal.null, JSVal.str "c1"⟩),
             newDb)) ∧
    companyUpdateQueries (JSVal.str "c1") [("numEmployees", JSVal.num 5)] =
      [{ text := companyUpdateText "\"num_employees\"=$1" "$2"
         values := some [JSVal.num 5, JSVal.str "c1"] }] ∧
    runCompanyUpdate [] (JSVal.str "c1") [("numEmployees", JSVal.num 5)] =
      .error (.notFound ("No company: " ++ jsToString (JSVal.str "c1"))) ∧
    (∃ newDb,
      runCompanyUpdate
          [⟨JSVal.str "c1", JSVal.str "C1", JSVal.str "d", JSVal.null, JSVal.null⟩]
          (JSVal.str "c1") [("numEmployees", JSVal.num 5)] =
        .ok ((([("numEmployees", JSVal.num 5)].map
                (fun kv => (resolveCol companyJsToSql kv.1, kv.2))).foldl applyCompanySet
              ⟨JSVal.str "c1", JSVal.str "C1", JSVal.str "d", JSVal.null, JSVal.null⟩),
             newDb)) := by
  obtain ⟨⟨⟨partsJ, hokJ, hvJ, hlJ, hscJ, hqJ⟩, hexecJ⟩,
          ⟨⟨partsC, hokC, hvC, hlC, hscC, hqC⟩, hexecC⟩⟩ :=
    update_one_statement_shape (JSVal.num 1) (JSVal.str "c1")
      [("title", JSVal.str "New")] [("numEmployees", JSVal.num 5)]
      (by decide) (by decide) ([] : List JobRow) ([] : List CompanyRow)
  obtain ⟨⟨_, hexecJ2⟩, ⟨_, hexecC2⟩⟩ :=
    update_one_statement_shape (JSVal.num 1) (JSVal.str "c1")
      [("title", JSVal.str "New")] [("numEmployees", JSVal.num 5)]
      (by decide) (by decide)
      [⟨JSVal.num 1, JSVal.str "Old", JSVal.null, JSVal.null, JSVal.str "c1"⟩]
      [⟨JSVal.str "c1", JSVal.str "C1", JSVal.str "d", JSVal.null, JSVal.null⟩]
  have hsJ : partsJ.setCols = "\"title\"=$1" := by rw [hscJ]; decide
  have hsC : partsC.setCols = "\"num_employees\"=$1" := by rw [hscC]; decide
  refine ⟨?_, ?_, ?_, ?_, ?_, ?_⟩
  · rw [hqJ, hsJ]; decide
  · exact (hexecJ (by decide)).1 (by decide)
  · exact (hexecJ2 (by decide)).2
      ⟨JSVal.num 1, JSVal.str "Old", JSVal.null, JSVal.null, JSVal.str "c1"⟩ []
      (by decide)
  · rw [hqC, hsC]; decide
  · exact (hexecC (by decide)).1 (by decide)
  · exact (hexecC2 (by decide)).2
      ⟨JSVal.str "c1", JSVal.str "C1", JSVal.str "d", JSVal.null, JSVal.null⟩ []
      (by decide)

/-- The `CASE WHEN COUNT(j) = 0 THEN ARRAY[]::JSON[] ELSE ARRAY_AGG(j.job)
END` expression maps the would-be NULL aggregate to the empty list and is
otherwise the aggregated list itself. -/
theorem jobsAgg_case_eq (l : List JobRow) :
    (match (if l.isEmpty then none else some l : Option (List JobRow)) with
      | none => ([] : List JobRow)
      | some x => x) = l := by
  cases l <;> rfl

/-- C8 (amended): the first implementation of `Company.get`
(company.js lines 133-162) either fails with "not found" (exactly when no
company row matches the handle) or returns the single matching company
record together with a `jobs` field holding that company's jobs ordered by
title — present and equal to the empty list, never SQL NULL, when the
company has no jobs; the second implementation (lines 349-366) fails on the
same inputs with the same error but returns the company record with no
`jobs` property at all. -/
theorem companyGet_jobs_field (db : Db) (handle : JSVal) :
    (db.companies.filter (fun c => sqlEqB c.handle handle) = [] →
      companyGetV1 db handle = .error (.notFound ("No company: " ++ jsToString handle)) ∧
      companyGetV2 db handle = .error (.notFound ("No company: " ++ jsToString handle))) ∧
    (∀ c rest, db.companies.filter (fun c => sqlEqB c.handle handle) = c :: rest →
      ∃ js, companyGetV1 db handle =
          .ok { handle := c.handle, name := c.name, description := c.description
                numEmployees := c.num_employees, logoUrl := c.logo_url
                jobs := some js } ∧
        js.Perm (db.jobs.filter (fun j => sqlEqB j.company_handle c.handle)) ∧
        List.Sorted titleLe js ∧
        (db.jobs.filter (fun j => sqlEqB j.company_handle c.handle) = [] → js = []) ∧
        companyGetV2 db handle =
          .ok { handle := c.handle, name := c.name, description := c.description
                numEmployees := c.num_employees, logoUrl := c.logo_url
                jobs := none }) := by
  constructor
  · intro hfil
    constructor
    · simp [companyGetV1, hfil]
    · simp [companyGetV2, hfil]
  · intro c rest hfil
    refine ⟨List.insertionSort titleLe
      (db.jobs.filter (fun j => sqlEqB j.company_handle c.handle)), ?_, ?_, ?_, ?_, ?_⟩
    · simp only [companyGetV1, hfil]
      generalize List.insertionSort titleLe
        (List.filter (fun j => sqlEqB j.company_handle c.handle) db.jobs) = L
      cases L <;> rfl
    · exact List.perm_insertionSort titleLe _
    · exact List.sorted_insertionSort titleLe _
    · intro h
      rw [h]
      rfl
    · simp [companyGetV2, hfil]

/-- Witness for C8 at a two-company, three-job table: looked up behind its
handle, `c1` comes back from version 1 with its own two jobs sorted by
title, `c2` (no jobs) with the empty list, while version 2 returns no jobs
property, and a missing handle is "not found". -/
theorem companyGet_jobs_field_witness :
    (∃ js, companyGetV1
        ⟨[⟨JSVal.str "c1", JSVal.str "C1", JSVal.str "d1", JSVal.null, JSVal.null⟩,
          ⟨JSVal.str "c2", JSVal.str "C2", JSVal.str "d2", JSVal.null, JSVal.null⟩],
         [⟨JSVal.num 1, JSVal.str "Zoo Keeper", JSVal.null, JSVal.null, JSVal.str "c1"⟩,
          ⟨JSVal.num 2, JSVal.str "Analyst", JSVal.null, JSVal.null, JSVal.str "c1"⟩,
          ⟨JSVal.num 3, JSVal.str "Clerk", JSVal.null, JSVal.null, JSVal.str "c3"⟩]⟩
        (JSVal.str "c1") =
      .ok { handle := JSVal.str "c1", name := JSVal.str "C1",
            description := JSVal.str "d1", numEmployees := JSVal.null,
            logoUrl := JSVal.null
            jobs := some js } ∧
      js.Perm
        [⟨JSVal.num 1, JSVal.str "Zoo Keeper", JSVal.null, JSVal.null, JSVal.str "c1"⟩,
         ⟨JSVal.num 2, JSVal.str "Analyst", JSVal.null, JSVal.null, JSVal.str "c1"⟩] ∧
      List.Sorted titleLe js) ∧
    (companyGetV1
        ⟨[⟨JSVal.str "c2", JSVal.str "C2", JSVal.str "d2", JSVal.null, JSVal.null⟩], []⟩
        (JSVal.str "c2") =
      .ok { handle := JSVal.str "c2", name := JSVal.str "C2",
            description := JSVal.str "d2", numEmployees := JSVal.null,
            logoUrl := JSVal.null, jobs := some [] }) ∧
    (companyGetV1 ⟨[], []⟩ (JSVal.str "nope") =
      .error (.notFound ("No company: " ++ jsToString (JSVal.str "nope")))) := by
  refine ⟨?_, ?_, ?_⟩
  · obtain ⟨js, h1, h2, h3, h4, h5⟩ :=
      (companyGet_jobs_field
        ⟨[⟨JSVal.str "c1", JSVal.str "C1", JSVal.str "d1", JSVal.null, JSVal.null⟩,
          ⟨JSVal.str "c2", JSVal.str "C2", JSVal.str "d2", JSVal.null, JSVal.null⟩],
         [⟨JSVal.num 1, JSVal.str "Zoo Keeper", JSVal.null, JSVal.null, JSVal.str "c1"⟩,
          ⟨JSVal.num 2, JSVal.str "Analyst", JSVal.null, JSVal.null, JSVal.str "c1"⟩,
          ⟨JSVal.num 3, JSVal.str "Clerk", JSVal.null, JSVal.null, JSVal.str "c3"⟩]⟩
        (JSVal.str "c1")).2
        ⟨JSVal.str "c1", JSVal.str "C1", JSVal.str "d1", JSVal.null, JSVal.null⟩ []
        (by decide)
    exact ⟨js, h1, by exact h2.trans (by decide), h3⟩
  · obtain ⟨js, h1, h2, h3, h4, h5⟩ :=
      (companyGet_jobs_field
        ⟨[⟨JSVal.str "c2", JSVal.str "C2", JSVal.str "d2", JSVal.null, JSVal.null⟩], []⟩
        (JSVal.str "c2")).2
        ⟨JSVal.str "c2", JSVal.str "C2", JSVal.str "d2", JSVal.null, JSVal.null⟩ []
        (by decide)
    rw [h1, h4 (by decide)]
  · exact ((companyGet_jobs_field ⟨[], []⟩ (JSVal.str "nope")).1 (by decide)).1

/-- C8 (counterexample to the claim as stated): the second implementation
of `Company.get` returns the matching company record with no `jobs`
property at all — not an empty list — for a company with no jobs. -/
theorem companyGetV2_lacks_jobs_field :
    companyGetV2
        ⟨[⟨JSVal.str "c1", JSVal.str "C1", JSVal.str "d", JSVal.null, JSVal.null⟩], []⟩
        (JSVal.str "c1") =
      .ok { handle := JSVal.str "c1", name := JSVal.str "C1",
            description := JSVal.str "d", numEmployees := JSVal.null,
            logoUrl := JSVal.null, jobs := none } ∧
    (none : Option (List JobRow)) ≠ some [] := by
  exact ⟨by decide, by decide⟩

/-- Applying SET assignments whose columns avoid `company_handle` leaves a
row's `company_handle` unchanged. -/
theorem foldl_applyJobSet_company_handle (pairs : List (String × JSVal))
    (r : JobRow) (h : "company_handle" ∉ pairs.map Prod.fst) :
    (pairs.foldl applyJobSet r).company_handle = r.company_handle := by
  induction pairs generalizing r with
  | nil => rfl
  | cons kv rest ih =>
    have h1 : kv.1 ≠ "company_handle" := by
      intro he
      exact h (by simp [he])
    have h2 : "company_handle" ∉ rest.map Prod.fst := by
      intro hm
      exact h (by simp [hm])
    rw [List.foldl_cons, ih _ h2]
    unfold applyJobSet
    split <;> simp_all

/-- C9 (amended): a successful `Job.update` leaves every stored
`companyHandle` unchanged whenever the update mapping does not use the raw
storage column name `company_handle` — in particular for the documented
updatable fields `{title, salary, equity}` — and an attempt via the JS
field name `companyHandle` is rejected by the engine as an unknown column
(the builder translates nothing for jobs) rather than applied.  The claim
as stated fails only for a mapping that supplies `company_handle` itself,
which the single UPDATE applies. -/
theorem jobUpdate_company_handle_immutable
    (db : List JobRow) (idv : JSVal) (data : List (String × JSVal)) :
    (∀ job newDb, "company_handle" ∉ data.map Prod.fst →
      runJobUpdate db idv data = .ok (job, newDb) →
      newDb.map JobRow.company_handle = db.map JobRow.company_handle) ∧
    ("companyHandle" ∈ data.map Prod.fst →
      runJobUpdate db idv data =
        .error (.sqlError "column of UPDATE jobs does not exist")) := by
  constructor
  · intro job newDb hnc h
    by_cases hd : data = []
    · rw [hd] at h
      exact absurd h (by simp [runJobUpdate, sqlForPartialUpdate])
    · have hok := sqlForPartialUpdate_eq_ok data [] hd
      unfold runJobUpdate at h
      rw [hok] at h
      by_cases hany : ((data.map (fun kv => (resolveCol [] kv.1, kv.2))).any
          (fun kv => !jobColumns.contains kv.1)) = true
      · rw [if_pos hany] at h
        exact Except.noConfusion h
      · simp only [hany, Bool.false_eq_true, if_neg, ite_false] at h
        rcases hfil : (db.filter (fun r => sqlEqB r.id idv)) with _ | ⟨r0, rest0⟩
        · rw [hfil] at h
          simp at h
        · rw [hfil] at h
          simp only [List.map_cons] at h
          have hnewDb : newDb = db.map (fun r => if sqlEqB r.id idv then
              (data.map (fun kv => (resolveCol [] kv.1, kv.2))).foldl applyJobSet r
              else r) := by
            cases h
            rfl
          subst hnewDb
          rw [List.map_map]
          refine List.map_congr_left ?_
          intro r _
          simp only [Function.comp]
          by_cases hr : sqlEqB r.id idv = true
          · rw [if_pos hr]
            refine foldl_applyJobSet_company_handle _ _ ?_
            intro hmem
            refine hnc ?_
            obtain ⟨kv, hkv, hfst⟩ := List.mem_map.mp hmem
            obtain ⟨kv0, hkv0, rfl⟩ := List.mem_map.mp hkv
            exact List.mem_map.mpr ⟨kv0, hkv0, hfst⟩
          · rw [if_neg hr]
  · intro hmem
    have hd : data ≠ [] := by
      rintro rfl
      simp at hmem
    have hok := sqlForPartialUpdate_eq_ok data [] hd
    unfold runJobUpdate
    rw [hok]
    have hany : ((data.map (fun kv => (resolveCol [] kv.1, kv.2))).any
        (fun kv => !jobColumns.contains kv.1)) = true := by
      obtain ⟨kv, hkv, hfst⟩ := List.mem_map.mp hmem
      refine List.any_eq_true.mpr ⟨(resolveCol [] kv.1, kv.2), List.mem_map.mpr ⟨kv, hkv, rfl⟩, ?_⟩
      rw [resolveCol_nil, hfst]
      decide
    rw [if_pos hany]

/-- C9 (counterexample to the claim as stated): an update mapping that
supplies the storage column name `company_handle` directly succeeds and
changes the stored handle from `c1` to `c2`. -/
theorem jobUpdate_changes_company_handle :
    runJobUpdate [⟨JSVal.num 1, JSVal.str "t", JSVal.null, JSVal.null, JSVal.str "c1"⟩]
        (JSVal.num 1) [("company_handle", JSVal.str "c2")] =
      .ok (⟨JSVal.num 1, JSVal.str "t", JSVal.null, JSVal.null, JSVal.str "c2"⟩,
           [⟨JSVal.num 1, JSVal.str "t", JSVal.null, JSVal.null, JSVal.str "c2"⟩]) ∧
    JSVal.str "c2" ≠ JSVal.str "c1" := by decide

/-- Witness for C9 (amended) at a one-row table: a title-only update leaves
the stored handle list unchanged, and a `companyHandle` mapping draws the
unknown-column error. -/
theorem jobUpdate_company_handle_immutable_witness :
    ([⟨JSVal.num 1, JSVal.str "x", JSVal.null, JSVal.null, JSVal.str "c1"⟩].map
        JobRow.company_handle =
      [⟨JSVal.num 1, JSVal.str "t", JSVal.null, JSVal.null, JSVal.str "c1"⟩].map
        JobRow.company_handle) ∧
    runJobUpdate [⟨JSVal.num 1, JSVal.str "t", JSVal.null, JSVal.null, JSVal.str "c1"⟩]
        (JSVal.num 1) [("companyHandle", JSVal.str "c2")] =
      .error (.sqlError "column of UPDATE jobs does not exist") := by
  constructor
  · exact (jobUpdate_company_handle_immutable
      [⟨JSVal.num 1, JSVal.str "t", JSVal.null, JSVal.null, JSVal.str "c1"⟩]
      (JSVal.num 1) [("title", JSVal.str "x")]).1
      ⟨JSVal.num 1, JSVal.str "x", JSVal.null, JSVal.null, JSVal.str "c1"⟩
      [⟨JSVal.num 1, JSVal.str "x", JSVal.null, JSVal.null, JSVal.str "c1"⟩]
      (by decide) (by decide)
  · exact (jobUpdate_company_handle_immutable
      [⟨JSVal.num 1, JSVal.str "t", JSVal.null, JSVal.null, JSVal.str "c1"⟩]
      (JSVal.num 1) [("companyHandle", JSVal.str "c2")]).2 (by decide)

/-- C10: the two implementations of `Company.findAll` found in the source
file are observationally equivalent — on every filter mapping they build
character-identical SQL text, hand the executor identical ordered
bound-parameter lists (present exactly when non-empty), and fail with the
same error on exactly the same inputs. -/
theorem companyFindAll_versions_equivalent (f : CompanyFilter) :
    companyFindAllV1 f = companyFindAllV2 f := by
  unfold companyFindAllV1 companyFindAllV2
  rw [companyBuildV2_eq f]
  cases companyBuild f with
  | error e => rfl
  | ok b =>
    rcases b with ⟨w, p⟩
    cases p <;> rfl

/-- Witness for C3: the empty mapping fails everywhere with "No data", a
mapping with an unknown key and a null value is accepted. -/
theorem noData_error_iff_empty_witness :
    (sqlForPartialUpdate [] [] = .error (.badRequest "No data")) ∧
    (∃ parts, sqlForPartialUpdate [("notAColumn", JSVal.null)] [] = .ok parts) ∧
    runJobUpdate [] (.num 7) [] = .error (.badRequest "No data") ∧
    jobUpdateQueries (.num 7) [] = [] ∧
    runCompanyUpdate [] (.str "c1") [] = .error (.badRequest "No data") ∧
    companyUpdateQueries (.str "c1") [] = [] := by
  obtain ⟨h1, h2, h3, h4⟩ := noData_error_iff_empty
  exact ⟨(h1 [] []).mpr rfl, h2 _ [] (by decide),
         (h3 [] (.num 7)).1, (h3 [] (.num 7)).2,
         (h4 [] (.str "c1")).1, (h4 [] (.str "c1")).2⟩



